import Mathlib

/-!
Verification development for the Voxcribe whisper backend.

The definitions below are a shallow embedding of the transcription
orchestration code: the `/api/transcribe` request handler of `server.js`
(the document starting at line 210 of the concatenated file, whose line
numbers the claims cite), the `execAsyncAcceptOutput` process classifier,
the whisper binary discovery loop, the `downloadFile` redirect follower of
the installers, the Windows whisper installer of `utils/whisperInstaller.js`,
and the Windows ffmpeg downloader of `unnamed/part_002`.

External effects (filesystem probes, process executions, downloads) are
modelled by an environment record describing each effect outcome; the
handler is a pure function from that environment to the HTTP response it
sends, the per-request files it unlinks, and the external invocations it
performs.
-/

namespace Voxcribe

/-- Character-list version of substring search: does `hay` start with `pat`? -/
def leadMatch : List Char → List Char → Bool
  | [], _ => true
  | _ :: _, [] => false
  | p :: ps, h :: hs => p == h && leadMatch ps hs

/-- Does the character list contain `pat` as a contiguous subsequence? -/
def containsSeq (pat : List Char) : List Char → Bool
  | [] => leadMatch pat []
  | h :: t => leadMatch pat (h :: t) || containsSeq pat t

/-- `strIncludes hay pat` models JavaScript `hay.includes(pat)` /
a regex alternative matching literally. -/
def strIncludes (hay pat : String) : Bool :=
  containsSeq pat.data hay.data

/-- Lower-casing, character by character (models toLowerCase / a
case-insensitive regex). -/
def lowerStr (s : String) : String :=
  ⟨s.data.map Char.toLower⟩

/-- Drop leading whitespace characters. -/
def dropLeadingWs : List Char → List Char
  | [] => []
  | c :: t => if c.isWhitespace then dropLeadingWs t else c :: t

/-- Models JavaScript trim: drop leading and trailing whitespace. -/
def trimStr (s : String) : String :=
  ⟨((dropLeadingWs ((dropLeadingWs s.data).reverse)).reverse)⟩

/-- Split a character list into maximal whitespace-free words;
`acc` accumulates the current word in reverse. -/
def wordsAux (acc : List Char) : List Char → List (List Char)
  | [] => if acc.isEmpty then [] else [acc.reverse]
  | c :: t =>
    if c.isWhitespace then
      if acc.isEmpty then wordsAux [] t else acc.reverse :: wordsAux [] t
    else wordsAux (c :: acc) t

/-- Join words with single spaces. -/
def joinSpace : List (List Char) → List Char
  | [] => []
  | [w] => w
  | w :: ws => w ++ ' ' :: joinSpace ws

/-- Models the composite regex-replace-then-trim cleanup used by the handler:
collapse every whitespace run to a single space and trim the ends. -/
def normalizeWs (s : String) : String :=
  ⟨joinSpace (wordsAux [] s.data)⟩

/-- The observable outcome of one `child_process.exec` call:
`err` is `some msg` when the callback receives a truthy `error`
(non-zero exit or failure to spawn), and the two captured streams. -/
structure ExecOutcome where
  err : Option String
  stdout : String
  stderr : String
deriving DecidableEq, Repr

/-- The combined output, stdout concatenated with stderr, of `execAsyncAcceptOutput`. -/
def combinedOut (o : ExecOutcome) : String := ⟨o.stdout.data ++ o.stderr.data⟩

/-- The `WINDOWS_EXEC_ERROR` regex of server.js line 277: a case-insensitive
alternation of three Windows execution-failure phrases (access denied,
cannot-run-on-this-PC, not a valid Win32 application). -/
def windowsExecError (s : String) : Bool :=
  strIncludes (lowerStr s) "access is denied" ||
  strIncludes (lowerStr s) "can\u0027t run on your pc" ||
  strIncludes (lowerStr s) "is not a valid win32"

/-- `hasRealOutput` of server.js line 291:
non-empty trimmed combined output that is not only a Windows execution error. -/
def hasRealOutput (o : ExecOutcome) : Bool :=
  (trimStr (combinedOut o) != "") && !(windowsExecError (combinedOut o))

/-- `execAsyncAcceptOutput` (server.js lines 281-297): resolve with the
combined output when it is real output; otherwise reject exactly when the
process reported an error; otherwise resolve with the (empty or
error-signature) output. -/
def execAsyncAcceptOutput (o : ExecOutcome) : Except Unit String :=
  if hasRealOutput o then .ok (combinedOut o)
  else
    match o.err with
    | some _ => .error ()
    | none => .ok (combinedOut o)

/-- Plain `execAsync` (server.js lines 261-274) rejects exactly when the
callback receives an error. -/
def execAsyncOk (o : ExecOutcome) : Bool := o.err.isNone

/-- The value held by the `whisperOutput` variable after the
transcription `try/catch` (server.js lines 466-477): the resolved combined
output, or the initial empty string when `execAsyncAcceptOutput` rejected. -/
def retainedOutput (o : ExecOutcome) : String :=
  match execAsyncAcceptOutput o with
  | .ok s => s
  | .error _ => ""

/-- One whisper binary candidate as the discovery loop observes it:
whether `fs.existsSync` holds, and the outcome of running
`"<candidate>" --help`. -/
structure Candidate where
  present : Bool
  selfTest : ExecOutcome
deriving DecidableEq, Repr

/-- The discovery loop keeps a candidate exactly when it exists on disk and
`execAsyncAcceptOutput` on its self-test resolves. -/
def candidateAccepted (c : Candidate) : Bool :=
  c.present &&
    (match execAsyncAcceptOutput c.selfTest with
     | .ok _ => true
     | .error _ => false)

/-- Index of the first candidate the loop of server.js lines 435-444
accepts, if any. -/
def findAccepted : List Candidate → Option Nat
  | [] => none
  | c :: cs =>
    if candidateAccepted c then some 0
    else (findAccepted cs).map (· + 1)

/-- The candidates whose self-test the loop actually runs: absent
candidates are skipped via `continue`, and the loop `break`s at the first
accepted one. -/
def testedCandidates : List Candidate → List Candidate
  | [] => []
  | c :: cs =>
    if !c.present then testedCandidates cs
    else if candidateAccepted c then [c]
    else c :: testedCandidates cs

example : strIncludes (lowerStr "xAccess IS denied!") "access is denied" = true := by decide
example : windowsExecError "Access is denied" = true := by decide
example : hasRealOutput ⟨some "e", "usage: whisper", ""⟩ = true := by decide
example : execAsyncAcceptOutput ⟨some "e", "", "  "⟩ = .error () := rfl
example : execAsyncAcceptOutput ⟨none, "", ""⟩ = .ok "" := rfl
example : normalizeWs "  a   b  c " = "a b c" := by decide

/-- One timestamped segment of the parsed whisper JSON output; only its
`text` field is consumed by the handler. -/
structure Segment where
  text : String
deriving DecidableEq, Repr

/-- The parsed structured-output JSON as the handler consumes it:
the `transcription` array when present, the top-level `text` field,
and the top-level `duration` field. -/
structure Transcription where
  transcription : Option (List Segment)
  text : Option String
  duration : Option Nat
deriving DecidableEq, Repr

/-- server.js lines 526-531: join the trimmed segment texts with spaces and
collapse whitespace, or fall back to the top-level text field. -/
def fullTextOf (t : Transcription) : String :=
  match t.transcription with
  | some segs => normalizeWs ⟨joinSpace (segs.map (fun sg => (trimStr sg.text).data))⟩
  | none => normalizeWs (t.text.getD "")

/-- server.js line 535: the segments echoed back, defaulting to empty. -/
def segmentsOf (t : Transcription) : List Segment :=
  t.transcription.getD []

/-- server.js line 536: the duration echoed back, defaulting to zero. -/
def durationOf (t : Transcription) : Nat :=
  t.duration.getD 0

/-- The per-request temporary files of one transcription job: the multer
upload, the converted wav, and the structured-output json. -/
inductive JobFile
  | input
  | wav
  | json
deriving DecidableEq, Repr

/-- External process invocations the handler can perform. The
`ffmpegSelfTest` constructor exists so that its absence from every event
trace can be stated; the handler never emits it. -/
inductive Invocation
  | ffmpegConvert
  | ffmpegSelfTest
  | whisperSelfTest (c : Candidate)
  | whisperGlobalTest
  | whisperRun
deriving DecidableEq, Repr

/-- The JSON body of the HTTP response: either a transcript payload
with text, segments and duration, or an error payload. -/
inductive RespBody
  | transcript (text : String) (segments : List Segment) (duration : Nat)
  | jsonError (msg : String)
deriving DecidableEq, Repr

/-- What one run of the handler produces: the HTTP status, the JSON body,
the job files whose deletion it attempts, and the processes it invoked. -/
structure HandlerResult where
  status : Nat
  body : RespBody
  deleted : List JobFile
  events : List Invocation
deriving DecidableEq, Repr

/-- Everything the `/api/transcribe` handler observes from the outside
world during one request. `supportedLanguages` is the content of
SUPPORTED_LANGUAGE_CODES (server.js lines 301-303); `whisperRunOutcome` is
the outcome of the transcription invocation, consumed only by the local
`whisperOutput` variable. -/
structure Env where
  hasFile : Bool
  language : Option String
  supportedLanguages : List String
  ffmpegInstalled : Bool
  ffmpegInstall : Except String Unit
  whisperInstalled : Bool
  whisperInstall : Except String Unit
  modelAvailable : Bool
  modelDownload : Except String Unit
  convertOutcome : ExecOutcome
  candidates : List Candidate
  globalWhisperTest : ExecOutcome
  whisperRunOutcome : ExecOutcome
  jsonFileExists : Bool
  jsonRead : Except String Transcription
deriving Repr

/-- Multer text fields are strings and the check is JavaScript truthiness:
`if (!language)` rejects both an absent field and an empty string. -/
def langProvided : Option String → Bool
  | none => false
  | some s => s != ""

/-- Did an installation/download attempt succeed? -/
def isOkE : Except String Unit → Bool
  | .ok _ => true
  | .error _ => false

/-- server.js line 333 error body. -/
def ffmpegInstallFailMsg : String :=
  "FFmpeg not found and auto-install failed. Please install FFmpeg manually.\nDownload from https://www.gyan.dev/ffmpeg/builds/ffmpeg-git-essentials.7z (Windows x64)\nExtract ffmpeg.exe to bin/ directory."

/-- server.js line 351 error body. -/
def whisperInstallFailMsg : String :=
  "Whisper binary not found and auto-install failed. Please install manually.\nFor Linux/Mac, ensure \u0027make\u0027 and \u0027tar\u0027 are installed."

/-- server.js line 391 error body. -/
def modelDownloadFailMsg : String :=
  "Whisper model not found and download failed. Please download ggml-base.bin manually.\nDownload from https://huggingface.co/ggerganov/whisper.cpp/resolve/main/ggml-base.bin\nSave as models/ggml-base.bin"

/-- server.js line 457 error body. -/
def whisperNotRunMsg : String :=
  "Whisper could not be run on this PC. Please check server logs."

/-- server.js line 504 error body. -/
def noOutputFileMsg : String :=
  "Whisper produced no output file. Please check server logs."

/-- server.js lines 462-537, after a whisper binary has been resolved:
run the transcription (its failure is caught and only logged), look for the
structured-output file, read and parse it, clean up, and answer.
`ev` is the invocation trace accumulated so far. -/
def runPhase (env : Env) (ev : List Invocation) : HandlerResult :=
  let ev2 := ev ++ [Invocation.whisperRun]
  if !env.jsonFileExists then
    { status := 500, body := .jsonError noOutputFileMsg,
      deleted := [.input, .wav], events := ev2 }
  else
    match env.jsonRead with
    | .error _ =>
      { status := 200, body := .transcript "" [] 0, deleted := [], events := ev2 }
    | .ok t =>
      { status := 200,
        body := .transcript (fullTextOf t) (segmentsOf t) (durationOf t),
        deleted := [.input, .wav, .json], events := ev2 }

/-- server.js lines 432-460: iterate the candidate list; when none is
accepted, fall back to the global `whisper --help`; when even that fails,
delete input and wav and answer 500. -/
def discoveryPhase (env : Env) : HandlerResult :=
  let ev := Invocation.ffmpegConvert ::
    (testedCandidates env.candidates).map Invocation.whisperSelfTest
  match findAccepted env.candidates with
  | some _ => runPhase env ev
  | none =>
    match execAsyncAcceptOutput env.globalWhisperTest with
    | .ok _ => runPhase env (ev ++ [Invocation.whisperGlobalTest])
    | .error _ =>
      { status := 500, body := .jsonError whisperNotRunMsg,
        deleted := [.input, .wav], events := ev ++ [Invocation.whisperGlobalTest] }

/-- server.js lines 407-430: the ffmpeg conversion; on failure the input
file is unlinked and the canonical empty transcription is returned with the
default 200 status. -/
def convPhase (env : Env) : HandlerResult :=
  match env.convertOutcome.err with
  | some _ =>
    { status := 200, body := .transcript "" [] 0,
      deleted := [.input], events := [.ffmpegConvert] }
  | none => discoveryPhase env

/-- The `/api/transcribe` handler (server.js lines 306-545): request
validation, on-demand provisioning of ffmpeg, whisper and the model, then
conversion, discovery, transcription and recovery. Note that
`supportedLanguages` is never consulted. -/
def transcribeHandler (env : Env) : HandlerResult :=
  if !env.hasFile then
    { status := 400, body := .jsonError "No file uploaded", deleted := [], events := [] }
  else if !(langProvided env.language) then
    { status := 400, body := .jsonError "Language is required", deleted := [], events := [] }
  else if !env.ffmpegInstalled && !(isOkE env.ffmpegInstall) then
    { status := 500, body := .jsonError ffmpegInstallFailMsg, deleted := [], events := [] }
  else if !env.whisperInstalled && !(isOkE env.whisperInstall) then
    { status := 500, body := .jsonError whisperInstallFailMsg, deleted := [], events := [] }
  else if !env.modelAvailable && !(isOkE env.modelDownload) then
    { status := 500, body := .jsonError modelDownloadFailMsg, deleted := [], events := [] }
  else convPhase env

/-- The request reaches the conversion step: a file and a language were
supplied and each missing dependency was installed successfully. -/
def reachesConversion (env : Env) : Bool :=
  env.hasFile && langProvided env.language &&
  (env.ffmpegInstalled || isOkE env.ffmpegInstall) &&
  (env.whisperInstalled || isOkE env.whisperInstall) &&
  (env.modelAvailable || isOkE env.modelDownload)

/-- A whisper binary gets resolved, through the candidate list or through
the global fallback. -/
def whisperResolved (env : Env) : Bool :=
  (findAccepted env.candidates).isSome ||
    (match execAsyncAcceptOutput env.globalWhisperTest with
     | .ok _ => true
     | .error _ => false)


lemma handler_reaches_conv (env : Env) (h : reachesConversion env = true) :
    transcribeHandler env = convPhase env := by
  unfold reachesConversion at h
  simp only [Bool.and_eq_true, Bool.or_eq_true] at h
  obtain ⟨⟨⟨⟨hf, hl⟩, h1⟩, h2⟩, h3⟩ := h
  unfold transcribeHandler
  rcases h1 with h1 | h1 <;> rcases h2 with h2 | h2 <;> rcases h3 with h3 | h3 <;>
    simp [hf, hl, h1, h2, h3]

lemma discovery_resolved (env : Env) (h : whisperResolved env = true) :
    ∃ ev, discoveryPhase env = runPhase env ev := by
  unfold whisperResolved at h
  unfold discoveryPhase
  rcases hfa : findAccepted env.candidates with _ | i
  · rcases hg : execAsyncAcceptOutput env.globalWhisperTest with u | s
    · simp [hfa, hg] at h
    · exact ⟨(Invocation.ffmpegConvert ::
          (testedCandidates env.candidates).map Invocation.whisperSelfTest) ++
          [Invocation.whisperGlobalTest], by simp [hfa, hg]⟩
  · exact ⟨Invocation.ffmpegConvert ::
      (testedCandidates env.candidates).map Invocation.whisperSelfTest, by simp [hfa]⟩

lemma discovery_unresolved (env : Env) (h : whisperResolved env = false) :
    (discoveryPhase env).deleted = [JobFile.input, JobFile.wav] ∧
    (discoveryPhase env).status = 500 ∧
    (discoveryPhase env).body = .jsonError whisperNotRunMsg := by
  unfold whisperResolved at h
  unfold discoveryPhase
  rcases hfa : findAccepted env.candidates with _ | i
  · rcases hg : execAsyncAcceptOutput env.globalWhisperTest with u | s
    · simp [hg]
    · simp [hfa, hg] at h
  · simp [hfa] at h

lemma findAccepted_get (cs : List Candidate) :
    ∀ (i : Nat) (c : Candidate), findAccepted cs = some i →
      cs[i]? = some c → candidateAccepted c = true := by
  induction cs with
  | nil => intro i c h _; simp [findAccepted] at h
  | cons hd tl ih =>
    intro i c h hg
    unfold findAccepted at h
    by_cases hacc : candidateAccepted hd
    · simp [hacc] at h
      subst h
      simp at hg
      subst hg
      exact hacc
    · simp [hacc] at h
      obtain ⟨j, hj, rfl⟩ := h
      simp [List.getElem?_cons_succ] at hg
      exact ih j c hj hg

lemma findAccepted_earlier (cs : List Candidate) :
    ∀ (i j : Nat) (c : Candidate), findAccepted cs = some i → j < i →
      cs[j]? = some c → candidateAccepted c = false := by
  induction cs with
  | nil => intro i j c h _ _; simp [findAccepted] at h
  | cons hd tl ih =>
    intro i j c h hji hg
    unfold findAccepted at h
    by_cases hacc : candidateAccepted hd
    · simp [hacc] at h
      omega
    · simp [hacc] at h
      obtain ⟨k, hk, rfl⟩ := h
      cases j with
      | zero =>
        simp at hg
        subst hg
        exact Bool.eq_false_iff.mpr hacc
      | succ j =>
        simp [List.getElem?_cons_succ] at hg
        exact ih k j c hk (by omega) hg

lemma testedCandidates_present (cs : List Candidate) :
    ∀ c : Candidate, c ∈ testedCandidates cs → c.present = true := by
  induction cs with
  | nil => intro c h; simp [testedCandidates] at h
  | cons hd tl ih =>
    intro c h
    unfold testedCandidates at h
    by_cases hp : hd.present
    · simp [hp] at h
      by_cases hacc : candidateAccepted hd
      · simp [hacc] at h
        subst h
        exact hp
      · simp [hacc] at h
        rcases h with rfl | h
        · exact hp
        · exact ih c h
    · simp [hp] at h
      exact ih c h

lemma candidateAccepted_iff (c : Candidate) :
    candidateAccepted c =
      (c.present && (hasRealOutput c.selfTest || c.selfTest.err.isNone)) := by
  unfold candidateAccepted execAsyncAcceptOutput
  rcases hR : hasRealOutput c.selfTest with _ | _ <;>
    rcases hE : c.selfTest.err with _ | m <;> simp [hR, hE]


/-- The redirect status codes `downloadFile` follows
(utils/ffmpegInstaller.js line 100, utils/whisperInstaller.js line 144,
unnamed/part_001 line 49): 301, 302, 307 and 308. -/
def redirectStatuses : List Nat := [301, 302, 307, 308]

/-- Is the status code one of the four redirect codes? -/
def isRedirectCode (n : Nat) : Bool := redirectStatuses.contains n

/-- An abstract HTTP server for `downloadFile`: for each URL, the status
code of the response and the Location header value. -/
def cycServer : String → Nat × String := fun u => (302, u)

/-- `downloadFile server u` settles (its promise resolves or rejects)
exactly when the chain of unconditional recursive calls on the Location
header reaches a non-redirect response: a redirect recurses with no depth
limit, every other status resolves or rejects immediately. -/
inductive Settles (server : String → Nat × String) : String → Prop
  | done (u : String) :
      isRedirectCode (server u).1 = false → Settles server u
  | redirect (u : String) :
      isRedirectCode (server u).1 = true → Settles server (server u).2 →
      Settles server u

/-- Bounded unfolding of the redirect chain of `downloadFile`: does it
reach a non-redirect response within `fuel` redirects? -/
def settlesIn (server : String → Nat × String) : Nat → String → Bool
  | 0, u => !(isRedirectCode (server u).1)
  | n + 1, u =>
    if isRedirectCode (server u).1 then settlesIn server n (server u).2
    else true

lemma settlesIn_sound (server : String → Nat × String) :
    ∀ (n : Nat) (u : String), settlesIn server n u = true → Settles server u := by
  intro n
  induction n with
  | zero =>
    intro u h
    unfold settlesIn at h
    exact .done u (by simpa using h)
  | succ n ih =>
    intro u h
    unfold settlesIn at h
    by_cases hr : isRedirectCode (server u).1
    · simp [hr] at h
      exact .redirect u hr (ih _ h)
    · exact .done u (Bool.eq_false_iff.mpr hr)

lemma settles_fuel (server : String → Nat × String) (u : String)
    (h : Settles server u) : ∃ n, settlesIn server n u = true := by
  induction h with
  | done v hv => exact ⟨0, by simp [settlesIn, hv]⟩
  | redirect v hv _ ih =>
    obtain ⟨n, hn⟩ := ih
    exact ⟨n + 1, by simp [settlesIn, hv, hn]⟩

/-- Environment for `downloadWhisperWindows`
(utils/whisperInstaller.js lines 195-266): whether the release zip
download, the PowerShell extraction and the binary search succeed. -/
structure WhisperInstallEnv where
  downloadOk : Bool
  extractOk : Bool
  binaryFound : Bool
deriving DecidableEq, Repr

/-- What a run of `downloadWhisperWindows` leaves behind: its outcome and
whether the downloaded zip or the extraction directory are still on disk. -/
structure WhisperInstallResult where
  outcome : Except String Unit
  zipRemains : Bool
  extractDirRemains : Bool
deriving Repr

/-- `downloadWhisperWindows` (utils/whisperInstaller.js lines 195-266):
download, extract, locate the binary, copy it with its DLLs; any step
failing raises; the `finally` block (lines 260-265) removes the zip and
the extraction directory on every path, success or failure. -/
def downloadWhisperWindows (e : WhisperInstallEnv) : WhisperInstallResult :=
  let outcome : Except String Unit :=
    if !e.downloadOk then .error "download failed"
    else if !e.extractOk then .error "extraction failed"
    else if !e.binaryFound then
      .error "No valid Whisper binary (main.exe / whisper-cli.exe) found in archive."
    else .ok ()
  { outcome := outcome, zipRemains := false, extractDirRemains := false }

/-- Environment for the `downloadFFmpegWindows` of unnamed/part_002:
whether the 7z archive download succeeds, whether one of the two
extraction methods (system 7z, then PowerShell Expand-Archive) succeeds,
and whether ffmpeg.exe is found in the extracted tree. -/
structure FFmpeg2Env where
  downloadOk : Bool
  extractOk : Bool
  ffmpegFound : Bool
deriving DecidableEq, Repr

/-- What a run of the part_002 `downloadFFmpegWindows` produces: whether a
real ffmpeg.exe was copied to the destination, whether an empty
placeholder file was written there instead, and whether the downloaded
archive bin/ffmpeg.7z is still on disk afterwards. -/
structure FFmpeg2Result where
  realBinaryInstalled : Bool
  placeholderWritten : Bool
  archiveRemains : Bool
deriving DecidableEq, Repr

/-- The try-block of the part_002 `downloadFFmpegWindows` (lines 64-238).
Only the download itself can raise out of it; the extraction and search
steps each swallow their own failures. When both extraction methods fail,
the alternate ZIP branch (lines 178-236) always ends writing a placeholder:
its reference to findFfmpegInDir is out of scope there, so the branch
falls into its catch. The archive bin/ffmpeg.7z is never unlinked. -/
def ffmpeg2TryBody (e : FFmpeg2Env) : Except String FFmpeg2Result :=
  if !e.downloadOk then .error "download failed"
  else if e.extractOk then
    if e.ffmpegFound then
      .ok { realBinaryInstalled := true, placeholderWritten := false,
            archiveRemains := true }
    else
      .ok { realBinaryInstalled := false, placeholderWritten := true,
            archiveRemains := true }
  else
    .ok { realBinaryInstalled := false, placeholderWritten := true,
          archiveRemains := true }

/-- `downloadFFmpegWindows` of unnamed/part_002: the catch at lines 239-245
turns every raise into writing an empty placeholder at the destination and
returning the destination normally — the promise never rejects. -/
def downloadFFmpegWindows2 (e : FFmpeg2Env) : Except String FFmpeg2Result :=
  match ffmpeg2TryBody e with
  | .ok r => .ok r
  | .error _ =>
    .ok { realBinaryInstalled := false, placeholderWritten := true,
          archiveRemains := false }

/-- Every download source and installation strategy of the part_002
installer failed: no real binary can have been produced. -/
def allStrategiesFail (e : FFmpeg2Env) : Bool :=
  !(e.downloadOk && e.extractOk && e.ffmpegFound)

/-- Whether bin/ffmpeg.7z is left on disk after the part_002
`downloadFFmpegWindows` returns. -/
def archiveRemainsAfter (e : FFmpeg2Env) : Bool :=
  match downloadFFmpegWindows2 e with
  | .ok r => r.archiveRemains
  | .error _ => false


/-- A self-test outcome that any functional whisper build produces:
usage text on the combined stream. -/
def goodSelfTest : ExecOutcome := ⟨none, "usage: whisper-cli [options] file", ""⟩

/-- A candidate binary that is present and passes its self-test. -/
def goodCandidate : Candidate := ⟨true, goodSelfTest⟩

/-- A parsed structured output with two segments. -/
def okTranscription : Transcription :=
  { transcription := some [⟨" Hello"⟩, ⟨"world "⟩], text := none, duration := some 5 }

/-- A request with an unsupported language code on an otherwise fully
functional pipeline. -/
def envC1 : Env :=
  { hasFile := true, language := some "xx",
    supportedLanguages := ["en", "es", "fr", "de", "hi"],
    ffmpegInstalled := true, ffmpegInstall := .ok (),
    whisperInstalled := true, whisperInstall := .ok (),
    modelAvailable := true, modelDownload := .ok (),
    convertOutcome := ⟨none, "", "ffmpeg conversion log"⟩,
    candidates := [goodCandidate],
    globalWhisperTest := ⟨some "not found", "", ""⟩,
    whisperRunOutcome := ⟨none, "[00:00:00.000 --> 00:00:05.000] Hello world", ""⟩,
    jsonFileExists := true, jsonRead := .ok okTranscription }

example : (transcribeHandler envC1).status = 200 := rfl
example : reachesConversion envC1 = true := rfl
example : (transcribeHandler envC1).body =
    .transcript "Hello world" [⟨" Hello"⟩, ⟨"world "⟩] 5 := rfl

/-- Claim C1: the spec requires requests whose language code is absent from
the supported-language table to be rejected with 400 and the error
Unsupported language before any processing. The handler never consults
the table: its response is invariant under any change of
`supportedLanguages`, and for the concrete request `envC1` with
`language = some "xx"` absent from the table it runs the full pipeline and
answers 200, attempting the conversion. -/
theorem C1_language_table_ignored :
    (∀ (env : Env) (l : List String),
        transcribeHandler { env with supportedLanguages := l } =
          transcribeHandler env) ∧
    (envC1.language = some "xx" ∧
      envC1.supportedLanguages.contains "xx" = false ∧
      (transcribeHandler envC1).status = 200 ∧
      (transcribeHandler envC1).status ≠ 400 ∧
      Invocation.ffmpegConvert ∈ (transcribeHandler envC1).events) := by
  constructor
  · intro env l
    cases env
    rfl
  · exact ⟨rfl, rfl, rfl, by decide, by decide⟩

/-- A request reaching the conversion step whose conversion fails. -/
def envC2 : Env :=
  { hasFile := true, language := some "en",
    supportedLanguages := ["en", "es", "fr", "de", "hi"],
    ffmpegInstalled := true, ffmpegInstall := .ok (),
    whisperInstalled := true, whisperInstall := .ok (),
    modelAvailable := true, modelDownload := .ok (),
    convertOutcome := ⟨some "Command failed: exit 1", "", "Invalid data found when processing input"⟩,
    candidates := [goodCandidate],
    globalWhisperTest := ⟨some "not found", "", ""⟩,
    whisperRunOutcome := ⟨none, "", ""⟩,
    jsonFileExists := false, jsonRead := .error "ENOENT" }

/-- Claim C2: whenever the request reaches the conversion step and the
converter invocation fails (non-zero exit or failure to execute, both
reported through the exec error), the handler answers with the default
success status 200 and a body that is exactly the empty transcript
(empty text, no segments, zero duration) — never an error response. -/
theorem C2_converter_failure_degrades (env : Env)
    (h : reachesConversion env = true)
    (hc : env.convertOutcome.err.isSome = true) :
    (transcribeHandler env).status = 200 ∧
    (transcribeHandler env).body = .transcript "" [] 0 := by
  rw [handler_reaches_conv env h]
  unfold convPhase
  obtain ⟨m, hm⟩ := Option.isSome_iff_exists.mp hc
  simp [hm]

/-- Witness for C2 at the concrete failing conversion `envC2`. -/
theorem C2_witness :
    reachesConversion envC2 = true ∧ envC2.convertOutcome.err.isSome = true ∧
    (transcribeHandler envC2).status = 200 ∧
    (transcribeHandler envC2).body = .transcript "" [] 0 :=
  ⟨rfl, rfl, (C2_converter_failure_degrades envC2 rfl rfl).1,
    (C2_converter_failure_degrades envC2 rfl rfl).2⟩

/-- Modelled from the spec: the OutputRecovery heuristic for an embedded
structured payload in the captured invocation output — a timestamp-bracket
marker co-occurring with a brace-delimited block. The handler under src/
contains no such extraction; this predicate only states the premise of the
original claim. -/
def specEmbeddedPayload (s : String) : Bool :=
  strIncludes s "-->" && strIncludes s "\x7b" && strIncludes s "\x7d"

/-- A run where the engine produces no structured-output file but its
captured output carries a brace-delimited JSON block. -/
def envC3 : Env :=
  { hasFile := true, language := some "en",
    supportedLanguages := ["en", "es", "fr", "de", "hi"],
    ffmpegInstalled := true, ffmpegInstall := .ok (),
    whisperInstalled := true, whisperInstall := .ok (),
    modelAvailable := true, modelDownload := .ok (),
    convertOutcome := ⟨none, "", "ffmpeg conversion log"⟩,
    candidates := [goodCandidate],
    globalWhisperTest := ⟨some "not found", "", ""⟩,
    whisperRunOutcome :=
      ⟨some "exit 3", "[00:00:00.000 --> 00:00:02.000] \x7b\"text\": \"hello\"\x7d", ""⟩,
    jsonFileExists := false, jsonRead := .error "ENOENT" }

/-- Counterexample to claim C3: for `envC3` the captured invocation output
contains a brace-delimited JSON block next to a timestamp marker, no
structured-output file exists, and the handler answers 500 with the
no-output-file error instead of recovering the block as the transcript. -/
theorem C3_counterexample :
    specEmbeddedPayload (combinedOut envC3.whisperRunOutcome) = true ∧
    retainedOutput envC3.whisperRunOutcome = combinedOut envC3.whisperRunOutcome ∧
    envC3.jsonFileExists = false ∧
    (transcribeHandler envC3).status = 500 ∧
    (transcribeHandler envC3).body = .jsonError noOutputFileMsg :=
  ⟨by decide, rfl, rfl, rfl, rfl⟩

/-- Claim C3 amended: when no structured-output file exists, the handler
always answers 500 with the no-output-file error, whatever the captured
invocation output contains: no extraction from the captured output is
performed. -/
theorem C3_no_output_file_is_error (env : Env)
    (h1 : reachesConversion env = true)
    (h2 : env.convertOutcome.err = none)
    (h3 : whisperResolved env = true)
    (h4 : env.jsonFileExists = false) :
    (transcribeHandler env).status = 500 ∧
    (transcribeHandler env).body = .jsonError noOutputFileMsg ∧
    (transcribeHandler env).deleted = [JobFile.input, JobFile.wav] := by
  rw [handler_reaches_conv env h1]
  unfold convPhase
  rw [h2]
  obtain ⟨ev, hev⟩ := discovery_resolved env h3
  rw [hev]
  unfold runPhase
  simp [h4]

/-- Witness for the amended C3 at `envC3`. -/
theorem C3_witness :
    reachesConversion envC3 = true ∧ whisperResolved envC3 = true ∧
    (transcribeHandler envC3).status = 500 ∧
    (transcribeHandler envC3).body = .jsonError noOutputFileMsg :=
  ⟨rfl, rfl, (C3_no_output_file_is_error envC3 rfl rfl rfl rfl).1,
    (C3_no_output_file_is_error envC3 rfl rfl rfl rfl).2.1⟩

/-- A candidate that is present on disk and whose self-test prints a
platform-execution-error signature but exits with status 0. -/
def sigOkCandidate : Candidate := ⟨true, ⟨none, "Access is denied", ""⟩⟩

/-- Counterexample to claim C4: discovery must, per the claim, reject every
present candidate whose self-test output matches the platform-execution-
error signature set; `sigOkCandidate` produces exactly such output, yet
because its self-test reports no exec error the loop accepts it. -/
theorem C4_counterexample :
    sigOkCandidate.present = true ∧
    windowsExecError (combinedOut sigOkCandidate.selfTest) = true ∧
    candidateAccepted sigOkCandidate = true :=
  ⟨rfl, by decide, by decide⟩

/-- Claim C4 amended: discovery tries candidates in declared order and
stops at the first accepted one; a candidate is accepted exactly when it
is present and its self-test either produced real (non-signature,
non-empty) output or reported no exec error; every earlier candidate is
rejected, and only present candidates are ever tested. In particular a
present candidate whose self-test fails with no output, or fails with
only signature output, is rejected and the next one is tried. -/
theorem C4_discovery_order :
    (∀ c : Candidate, candidateAccepted c =
        (c.present && (hasRealOutput c.selfTest || c.selfTest.err.isNone))) ∧
    (∀ (cs : List Candidate) (i : Nat) (c : Candidate),
        findAccepted cs = some i → cs[i]? = some c →
        candidateAccepted c = true) ∧
    (∀ (cs : List Candidate) (i j : Nat) (c : Candidate),
        findAccepted cs = some i → j < i → cs[j]? = some c →
        candidateAccepted c = false) ∧
    (∀ (cs : List Candidate) (c : Candidate),
        c ∈ testedCandidates cs → c.present = true) :=
  ⟨candidateAccepted_iff,
   fun cs => findAccepted_get cs,
   fun cs => findAccepted_earlier cs,
   fun cs => testedCandidates_present cs⟩

/-- A present candidate rejected by its self-test (error with no output). -/
def deadCandidate : Candidate := ⟨true, ⟨some "spawn EACCES", "", ""⟩⟩

/-- An absent candidate. -/
def absentCandidate : Candidate := ⟨false, goodSelfTest⟩

/-- A candidate list where only the last candidate is functional. -/
def lastOnlyList : List Candidate := [absentCandidate, deadCandidate, goodCandidate]

/-- Witness for the amended C4 on `lastOnlyList`: discovery lands on the
last candidate, the earlier present candidate is rejected, and only the
present candidates were tested. -/
theorem C4_witness :
    findAccepted lastOnlyList = some 2 ∧
    candidateAccepted goodCandidate = true ∧
    candidateAccepted deadCandidate = false ∧
    deadCandidate.present = true ∧
    testedCandidates lastOnlyList = [deadCandidate, goodCandidate] :=
  ⟨rfl,
   C4_discovery_order.2.1 lastOnlyList 2 goodCandidate rfl rfl,
   C4_discovery_order.2.2.1 lastOnlyList 2 1 deadCandidate rfl (by decide) rfl,
   C4_discovery_order.2.2.2 lastOnlyList deadCandidate (by decide),
   rfl⟩

/-- A part_002 provisioning run in which everything fails: the download of
the 7z archive, both extraction methods, and the binary search. -/
def envC5 : FFmpeg2Env := ⟨false, false, false⟩

/-- Counterexample to claim C5: with every download source and
installation strategy failing, the part_002 `downloadFFmpegWindows`
does not raise; it returns normally having written an empty placeholder
and installed no functional binary — the failure is silently swallowed. -/
theorem C5_counterexample :
    allStrategiesFail envC5 = true ∧
    downloadFFmpegWindows2 envC5 =
      .ok { realBinaryInstalled := false, placeholderWritten := true,
            archiveRemains := false } :=
  ⟨rfl, rfl⟩

/-- Claim C5 amended: the part_002 installer never propagates a failure:
`downloadFFmpegWindows` always returns normally, and whenever every
strategy failed it has written an empty placeholder at the destination
instead of installing a functional binary. -/
theorem C5_part002_swallows_failure (e : FFmpeg2Env) :
    ∃ r : FFmpeg2Result, downloadFFmpegWindows2 e = .ok r ∧
      (allStrategiesFail e = true →
        r.realBinaryInstalled = false ∧ r.placeholderWritten = true) := by
  rcases e with ⟨d, x, f⟩
  cases d <;> cases x <;> cases f <;> exact ⟨_, rfl, by decide⟩

/-- Witness for the amended C5 at the all-failing run `envC5`. -/
theorem C5_witness :
    ∃ r : FFmpeg2Result, downloadFFmpegWindows2 envC5 = .ok r ∧
      r.realBinaryInstalled = false ∧ r.placeholderWritten = true := by
  obtain ⟨r, h1, h2⟩ := C5_part002_swallows_failure envC5
  exact ⟨r, h1, (h2 rfl).1, (h2 rfl).2⟩

/-- A run where the structured-output file exists but cannot be read or
parsed: the handler answers the degraded empty transcript. -/
def envC6 : Env :=
  { hasFile := true, language := some "en",
    supportedLanguages := ["en", "es", "fr", "de", "hi"],
    ffmpegInstalled := true, ffmpegInstall := .ok (),
    whisperInstalled := true, whisperInstall := .ok (),
    modelAvailable := true, modelDownload := .ok (),
    convertOutcome := ⟨none, "", "ffmpeg conversion log"⟩,
    candidates := [goodCandidate],
    globalWhisperTest := ⟨some "not found", "", ""⟩,
    whisperRunOutcome := ⟨none, "[00:00:00.000 --> 00:00:05.000] Hello world", ""⟩,
    jsonFileExists := true,
    jsonRead := .error "Unexpected end of JSON input" }

/-- Counterexample to claim C6: on the unreadable-structured-output exit
path of `envC6` the uploaded input file, the converted wav file and the
structured-output file all exist (the json file was just accessed), yet
the handler returns the degraded response attempting no deletion at all. -/
theorem C6_counterexample :
    envC6.jsonFileExists = true ∧
    (transcribeHandler envC6).status = 200 ∧
    (transcribeHandler envC6).body = .transcript "" [] 0 ∧
    (transcribeHandler envC6).deleted = [] :=
  ⟨rfl, rfl, rfl, rfl⟩

/-- Claim C6 amended: cleanup is per-path, not on every exit path. The
conversion-failure path deletes only the input file; the
engine-unresolvable and no-output-file paths delete input and wav; the
successful-read path deletes input, wav and json; but the
unreadable-structured-output degraded path deletes nothing (and the
pre-conversion rejection paths delete nothing). Cleanup is best-effort,
its errors swallowed. -/
theorem C6_cleanup_by_path :
    (∀ env : Env, reachesConversion env = true →
        env.convertOutcome.err.isSome = true →
        (transcribeHandler env).deleted = [JobFile.input]) ∧
    (∀ env : Env, reachesConversion env = true →
        env.convertOutcome.err = none → whisperResolved env = false →
        (transcribeHandler env).deleted = [JobFile.input, JobFile.wav]) ∧
    (∀ env : Env, reachesConversion env = true →
        env.convertOutcome.err = none → whisperResolved env = true →
        env.jsonFileExists = false →
        (transcribeHandler env).deleted = [JobFile.input, JobFile.wav]) ∧
    (∀ (env : Env) (m : String), reachesConversion env = true →
        env.convertOutcome.err = none → whisperResolved env = true →
        env.jsonFileExists = true → env.jsonRead = .error m →
        (transcribeHandler env).deleted = [] ∧
        (transcribeHandler env).status = 200) ∧
    (∀ (env : Env) (t : Transcription), reachesConversion env = true →
        env.convertOutcome.err = none → whisperResolved env = true →
        env.jsonFileExists = true → env.jsonRead = .ok t →
        (transcribeHandler env).deleted =
          [JobFile.input, JobFile.wav, JobFile.json]) := by
  refine ⟨?_, ?_, ?_, ?_, ?_⟩
  · intro env h hc
    rw [handler_reaches_conv env h]
    unfold convPhase
    obtain ⟨m, hm⟩ := Option.isSome_iff_exists.mp hc
    simp [hm]
  · intro env h hc hw
    rw [handler_reaches_conv env h]
    unfold convPhase
    rw [hc]
    exact (discovery_unresolved env hw).1
  · intro env h hc hw hj
    rw [handler_reaches_conv env h]
    unfold convPhase
    rw [hc]
    obtain ⟨ev, hev⟩ := discovery_resolved env hw
    rw [hev]
    unfold runPhase
    simp [hj]
  · intro env m h hc hw hj hr
    rw [handler_reaches_conv env h]
    unfold convPhase
    rw [hc]
    obtain ⟨ev, hev⟩ := discovery_resolved env hw
    rw [hev]
    unfold runPhase
    simp [hj, hr]
  · intro env t h hc hw hj hr
    rw [handler_reaches_conv env h]
    unfold convPhase
    rw [hc]
    obtain ⟨ev, hev⟩ := discovery_resolved env hw
    rw [hev]
    unfold runPhase
    simp [hj, hr]

/-- Witness for the amended C6: the success path of `envC1`-shaped runs
deletes all three files and the unreadable-output path of `envC6` deletes
none. -/
theorem C6_witness :
    (transcribeHandler envC6).deleted = [] ∧
    (transcribeHandler envC6).status = 200 :=
  C6_cleanup_by_path.2.2.2.1 envC6 "Unexpected end of JSON input" rfl rfl rfl rfl rfl

/-- A fully successful part_002 run: download, extraction and binary
search all succeed. -/
def envC7 : FFmpeg2Env := ⟨true, true, true⟩

/-- Counterexample to claim C7: after a fully successful run of the
part_002 ffmpeg installer a temporary download artifact remains — the
downloaded archive bin/ffmpeg.7z is never unlinked anywhere in that
installer. -/
theorem C7_counterexample :
    downloadFFmpegWindows2 envC7 =
      .ok { realBinaryInstalled := true, placeholderWritten := false,
            archiveRemains := true } ∧
    archiveRemainsAfter envC7 = true :=
  ⟨rfl, rfl⟩

/-- Claim C7 amended: the whisper Windows installer removes its zip and
extraction directory on every path through its final cleanup block, but
the part_002 ffmpeg installer never removes the downloaded archive: on
every run whose download succeeded, bin/ffmpeg.7z remains on disk after
the installer returns, after success and after failure alike. -/
theorem C7_installer_artifacts :
    (∀ e : WhisperInstallEnv,
        (downloadWhisperWindows e).zipRemains = false ∧
        (downloadWhisperWindows e).extractDirRemains = false) ∧
    (∀ e : FFmpeg2Env, e.downloadOk = true →
        archiveRemainsAfter e = true) := by
  constructor
  · intro e
    exact ⟨rfl, rfl⟩
  · intro e hd
    rcases e with ⟨d, x, f⟩
    cases d
    · simp at hd
    · cases x <;> cases f <;> rfl

/-- Witness for the amended C7 at a successful whisper install and the
successful part_002 run `envC7`. -/
theorem C7_witness :
    (downloadWhisperWindows ⟨true, true, true⟩).zipRemains = false ∧
    archiveRemainsAfter envC7 = true :=
  ⟨(C7_installer_artifacts.1 ⟨true, true, true⟩).1,
   C7_installer_artifacts.2 envC7 rfl⟩

lemma no_ffmpeg_self_test_event (env : Env) :
    Invocation.ffmpegSelfTest ∉ (transcribeHandler env).events := by
  unfold transcribeHandler convPhase discoveryPhase runPhase
  repeat' split
  all_goals simp

/-- A fully successful transcription request: the engine is invoked with
no converter self-test anywhere in the trace. -/
def envC8 : Env :=
  { hasFile := true, language := some "hi",
    supportedLanguages := ["en", "es", "fr", "de", "hi"],
    ffmpegInstalled := true, ffmpegInstall := .ok (),
    whisperInstalled := true, whisperInstall := .ok (),
    modelAvailable := true, modelDownload := .ok (),
    convertOutcome := ⟨none, "", "ffmpeg conversion log"⟩,
    candidates := [goodCandidate],
    globalWhisperTest := ⟨some "not found", "", ""⟩,
    whisperRunOutcome := ⟨none, "[00:00:00.000 --> 00:00:05.000] Hello world", ""⟩,
    jsonFileExists := true, jsonRead := .ok okTranscription }

/-- Counterexample to claim C8: in the run `envC8` the engine is invoked
(`whisperRun` is in the trace) while no resampler self-test invocation
(`ffmpegSelfTest`) appears anywhere before it — no such invocation exists
in the handler at all. -/
theorem C8_counterexample :
    Invocation.whisperRun ∈ (transcribeHandler envC8).events ∧
    Invocation.ffmpegSelfTest ∉ (transcribeHandler envC8).events ∧
    (transcribeHandler envC8).status = 200 :=
  ⟨by decide, by decide, rfl⟩

/-- Claim C8 amended: the handler performs no secondary resampler
self-test at all — no event trace of any run contains one; the only
resampler invocation is the conversion itself, and any conversion failure
(parameter failure or the resampler being unable to execute at all, both
surfacing as an exec error) yields the same degraded-empty 200 response. -/
theorem C8_no_converter_self_test :
    (∀ env : Env,
        Invocation.ffmpegSelfTest ∉ (transcribeHandler env).events) ∧
    (∀ env : Env, reachesConversion env = true →
        env.convertOutcome.err.isSome = true →
        (transcribeHandler env).status = 200 ∧
        (transcribeHandler env).body = .transcript "" [] 0) := by
  constructor
  · exact no_ffmpeg_self_test_event
  · intro env h hc
    rw [handler_reaches_conv env h]
    unfold convPhase
    obtain ⟨m, hm⟩ := Option.isSome_iff_exists.mp hc
    simp [hm]

/-- A run shaped like `envC8` whose conversion fails. -/
def envC8fail : Env :=
  { envC8 with convertOutcome := ⟨some "exec format error", "", ""⟩ }

/-- Witness applying `C8_no_converter_self_test` at `envC8` and
`envC8fail`. -/
theorem C8_witness :
    Invocation.ffmpegSelfTest ∉ (transcribeHandler envC8).events ∧
    (transcribeHandler envC8fail).status = 200 ∧
    (transcribeHandler envC8fail).body = .transcript "" [] 0 :=
  ⟨C8_no_converter_self_test.1 envC8,
   (C8_no_converter_self_test.2 envC8fail rfl rfl).1,
   (C8_no_converter_self_test.2 envC8fail rfl rfl).2⟩

/-- An engine execution that exits non-zero with only a platform-error
signature on its combined streams. -/
def oC9 : ExecOutcome := ⟨some "Command failed", "Access is denied", ""⟩

/-- Counterexample to claim C9: for the non-zero-exit engine execution
`oC9` the combined output is non-empty, yet the pipeline retains the empty
string — `execAsyncAcceptOutput` rejected, so the captured output is
discarded rather than retained. -/
theorem C9_counterexample :
    oC9.err.isSome = true ∧
    combinedOut oC9 = "Access is denied" ∧
    retainedOutput oC9 = "" ∧
    retainedOutput oC9 ≠ combinedOut oC9 :=
  ⟨rfl, rfl, rfl, by decide⟩

/-- Claim C9 amended: a non-zero engine exit is never fatal — the response
(status, body, deletions, trace) is entirely independent of the engine
invocation outcome, the pipeline proceeding to output recovery in every
case; the combined output is retained when it is real output (non-empty
after trimming and not only an error signature), while a failing
execution without real output leaves the retained output empty. -/
theorem C9_engine_failure_nonfatal :
    (∀ (env : Env) (o : ExecOutcome),
        transcribeHandler { env with whisperRunOutcome := o } =
          transcribeHandler env) ∧
    (∀ o : ExecOutcome, o.err.isSome = true → hasRealOutput o = true →
        retainedOutput o = combinedOut o) ∧
    (∀ o : ExecOutcome, o.err.isSome = true → hasRealOutput o = false →
        retainedOutput o = "") := by
  refine ⟨?_, ?_, ?_⟩
  · intro env o
    cases env
    rfl
  · intro o _ h2
    unfold retainedOutput execAsyncAcceptOutput
    simp [h2]
  · intro o h1 h2
    obtain ⟨m, hm⟩ := Option.isSome_iff_exists.mp h1
    unfold retainedOutput execAsyncAcceptOutput
    simp [h2, hm]

/-- Witness applying `C9_engine_failure_nonfatal` at concrete outcomes:
a non-zero exit with real output keeps its output, and the non-zero exit
`oC9` without real output keeps nothing. -/
theorem C9_witness :
    retainedOutput ⟨some "exit 1", "partial transcript", ""⟩ =
      combinedOut ⟨some "exit 1", "partial transcript", ""⟩ ∧
    retainedOutput oC9 = "" :=
  ⟨C9_engine_failure_nonfatal.2.1 ⟨some "exit 1", "partial transcript", ""⟩ rfl (by decide),
   C9_engine_failure_nonfatal.2.2 oC9 rfl (by decide)⟩

/-- A server whose one redirect leads to a terminal 200 response. -/
def oneHopServer : String → Nat × String :=
  fun u => if u == "start" then (302, "final") else (200, "")

/-- Claim C10: every response with status 301, 302, 307 or 308 makes
`downloadFile` recurse unconditionally on the Location header, so the
call settles exactly when the redirect chain reaches a non-redirect
response after finitely many hops, and against a server producing a
redirect cycle (`cycServer` answers 302 back to the same URL) it never
settles. -/
theorem C10_redirect_recursion :
    (∀ (server : String → Nat × String) (u : String),
        isRedirectCode (server u).1 = true →
        (Settles server u ↔ Settles server (server u).2)) ∧
    (∀ (server : String → Nat × String) (u : String),
        Settles server u ↔ ∃ n, settlesIn server n u = true) ∧
    (∀ u : String, ¬ Settles cycServer u) := by
  refine ⟨?_, ?_, ?_⟩
  · intro server u h
    constructor
    · intro hs
      cases hs with
      | done _ h2 => rw [h] at h2; exact absurd h2 (by decide)
      | redirect _ _ h3 => exact h3
    · intro hs
      exact .redirect u h hs
  · intro server u
    exact ⟨settles_fuel server u, fun ⟨n, hn⟩ => settlesIn_sound server n u hn⟩
  · intro u hs
    induction hs with
    | done v hv => simp [cycServer, isRedirectCode, redirectStatuses] at hv
    | redirect v hv htail ih => exact ih

/-- Witness applying `C10_redirect_recursion`: the one-hop chain settles
and the cyclic server never settles. -/
theorem C10_witness :
    Settles oneHopServer "start" ∧ ¬ Settles cycServer "https://a.example/f.zip" :=
  ⟨(C10_redirect_recursion.1 oneHopServer "start" (by decide)).mpr
      ((C10_redirect_recursion.2.1 oneHopServer "final").mpr ⟨0, by decide⟩),
   C10_redirect_recursion.2.2 "https://a.example/f.zip"⟩

end Voxcribe
